import Mathlib

/-!
Verification of the `armoniacore/vite-plugin-ssr` plugin core.

The development shallowly embeds the plugin source (`src/index.ts`, reproduced
here from the repository's single unnamed source file, and `src/minify.ts`):

* JavaScript runtime values that flow through the untyped parts of the code
  (transform-hook results, `JSON.parse` output, the `ssr` option) are modelled
  by the inductive type `JSValue`, together with JS truthiness (`jsTruthy`)
  and the `typeof` operator (`jsTypeof`).
* `JSON.parse` is modelled by `jsonParse` (an executable recursive-descent
  parser; `none` models a thrown `SyntaxError`), and `JSON.stringify` on
  strings by `jsonStringifyStr` and on general values with an indent of two
  spaces by `jsonStringifyPretty`.
* The plugin's stateful variables (`manifestSource`, `templateSource`) form
  the `Store`; the dev-server middleware installed by `configureServer` is the
  function `handleRequest`, which also returns the list of observable
  collaborator calls it performed (`DevEvent`).
-/

/-- A JavaScript runtime value, as far as the plugin's dynamic checks can
distinguish them.  Numbers are represented exactly as `m * 10 ^ e`; functions
are opaque. -/
inductive JSValue where
  | vundefined
  | vnull
  | vbool (b : Bool)
  | vnum (m : Int) (e : Int)
  | vstr (s : String)
  | varr (elems : List JSValue)
  | vobj (fields : List (String × JSValue))
  | vfun (id : Nat)

/-- JavaScript truthiness of a value (`undefined`, `null`, `false`, `0`, and
the empty string are falsy). -/
def jsTruthy : JSValue → Bool
  | .vundefined => false
  | .vnull => false
  | .vbool b => b
  | .vnum m _ => m ≠ 0
  | .vstr s => s ≠ ""
  | .varr _ => true
  | .vobj _ => true
  | .vfun _ => true

/-- The JavaScript `typeof` operator (`typeof null` is `"object"`). -/
def jsTypeof : JSValue → String
  | .vundefined => "undefined"
  | .vnull => "object"
  | .vbool _ => "boolean"
  | .vnum _ _ => "number"
  | .vstr _ => "string"
  | .varr _ => "object"
  | .vobj _ => "object"
  | .vfun _ => "function"

/-- The left brace character, kept out of string literals. -/
def lbraceChar : Char := Char.ofNat 123

/-- The right brace character, kept out of string literals. -/
def rbraceChar : Char := Char.ofNat 125

/-- JSON insignificant whitespace. -/
def isJsonWs (c : Char) : Bool := c = ' ' || c = '\t' || c = '\n' || c = '\r'

/-- Drop leading JSON whitespace. -/
def skipWs (cs : List Char) : List Char := cs.dropWhile isJsonWs

/-- Value of one hexadecimal digit, if `c` is one. -/
def parseHexDigit (c : Char) : Option Nat :=
  if '0' ≤ c ∧ c ≤ '9' then some (c.toNat - 48)
  else if 'a' ≤ c ∧ c ≤ 'f' then some (c.toNat - 87)
  else if 'A' ≤ c ∧ c ≤ 'F' then some (c.toNat - 55)
  else none

/-- Lower-case hexadecimal digit for `n < 16`. -/
def hexDigitChar (n : Nat) : Char := Char.ofNat (if n < 10 then 48 + n else 87 + n)

/-- The character with unicode code point `n`, when `n` is a scalar value.
(`JSON.parse` additionally accepts surrogate pairs, which Lean strings cannot
hold; no code path in this development produces them.) -/
def charFromCode (n : Nat) : Option Char :=
  if n < 0xd800 ∨ (0xe000 ≤ n ∧ n < 0x110000) then some (Char.ofNat n) else none

/-- Parse the body of a JSON string literal (the opening quote already
consumed), returning the decoded characters and the remaining input. -/
def parseStringBody : List Char → Option (List Char × List Char)
  | [] => none
  | c :: rest =>
    if c = '"' then some ([], rest)
    else if c = '\\' then
      match rest with
      | [] => none
      | e :: rest2 =>
        if e = '"' then (parseStringBody rest2).map (fun p => ('"' :: p.1, p.2))
        else if e = '\\' then (parseStringBody rest2).map (fun p => ('\\' :: p.1, p.2))
        else if e = '/' then (parseStringBody rest2).map (fun p => ('/' :: p.1, p.2))
        else if e = 'b' then (parseStringBody rest2).map (fun p => ('\x08' :: p.1, p.2))
        else if e = 'f' then (parseStringBody rest2).map (fun p => ('\x0c' :: p.1, p.2))
        else if e = 'n' then (parseStringBody rest2).map (fun p => ('\n' :: p.1, p.2))
        else if e = 'r' then (parseStringBody rest2).map (fun p => ('\r' :: p.1, p.2))
        else if e = 't' then (parseStringBody rest2).map (fun p => ('\t' :: p.1, p.2))
        else if e = 'u' then
          match rest2 with
          | h1 :: h2 :: h3 :: h4 :: rest3 =>
            match parseHexDigit h1, parseHexDigit h2, parseHexDigit h3, parseHexDigit h4 with
            | some a, some b, some c2, some d =>
              match charFromCode (4096 * a + 256 * b + 16 * c2 + d) with
              | some ch => (parseStringBody rest3).map (fun p => (ch :: p.1, p.2))
              | none => none
            | _, _, _, _ => none
          | _ => none
        else none
    else if c.toNat < 32 then none
    else (parseStringBody rest).map (fun p => (c :: p.1, p.2))

/-- Numeric value of a digit string. -/
def digitsVal (ds : List Char) : Nat := ds.foldl (fun acc c => 10 * acc + (c.toNat - 48)) 0

/-- Parse an optional JSON fraction part, returning its digits. -/
def parseFrac : List Char → Option (List Char × List Char)
  | '.' :: r =>
    let ds := r.takeWhile Char.isDigit
    if ds.isEmpty then none else some (ds, r.dropWhile Char.isDigit)
  | cs => some ([], cs)

/-- Parse the sign and digits following the `e` of a JSON exponent. -/
def parseExpTail (cs : List Char) : Option (Int × List Char) :=
  let p : Int × List Char :=
    match cs with
    | '+' :: r => (1, r)
    | '-' :: r => (-1, r)
    | r => (1, r)
  let ds := p.2.takeWhile Char.isDigit
  if ds.isEmpty then none else some (p.1 * (digitsVal ds : Int), p.2.dropWhile Char.isDigit)

/-- Parse an optional JSON exponent part. -/
def parseExpPart : List Char → Option (Int × List Char)
  | 'e' :: r => parseExpTail r
  | 'E' :: r => parseExpTail r
  | cs => some (0, cs)

/-- Parse a JSON number (leading zeros are rejected, as `JSON.parse` does). -/
def parseNumber (cs : List Char) : Option (JSValue × List Char) :=
  let p : Bool × List Char := match cs with | '-' :: r => (true, r) | _ => (false, cs)
  let intDigits := p.2.takeWhile Char.isDigit
  let cs2 := p.2.dropWhile Char.isDigit
  if intDigits.isEmpty then none
  else if 1 < intDigits.length ∧ intDigits.head? = some '0' then none
  else
    match parseFrac cs2 with
    | none => none
    | some (fracDigits, cs3) =>
      match parseExpPart cs3 with
      | none => none
      | some (expVal, cs4) =>
        let mAbs : Int := (digitsVal (intDigits ++ fracDigits) : Int)
        some (.vnum (if p.1 then -mAbs else mAbs) (expVal - (fracDigits.length : Int)), cs4)

mutual

/-- Parse one JSON value (fuelled recursive descent). -/
def parseValue : Nat → List Char → Option (JSValue × List Char)
  | 0, _ => none
  | fuel + 1, cs =>
    match skipWs cs with
    | [] => none
    | c :: rest =>
      if c = '"' then (parseStringBody rest).map (fun p => (JSValue.vstr ⟨p.1⟩, p.2))
      else if c = lbraceChar then
        match skipWs rest with
        | c2 :: rest2 =>
          if c2 = rbraceChar then some (.vobj [], rest2) else parseMembers fuel (c2 :: rest2) []
        | [] => none
      else if c = '[' then
        match skipWs rest with
        | c2 :: rest2 =>
          if c2 = ']' then some (.varr [], rest2) else parseElements fuel (c2 :: rest2) []
        | [] => none
      else if c = 't' then
        match rest with
        | 'r' :: 'u' :: 'e' :: rest2 => some (.vbool true, rest2)
        | _ => none
      else if c = 'f' then
        match rest with
        | 'a' :: 'l' :: 's' :: 'e' :: rest2 => some (.vbool false, rest2)
        | _ => none
      else if c = 'n' then
        match rest with
        | 'u' :: 'l' :: 'l' :: rest2 => some (.vnull, rest2)
        | _ => none
      else parseNumber (c :: rest)

/-- Parse the members of a JSON object after its opening brace. -/
def parseMembers : Nat → List Char → List (String × JSValue) → Option (JSValue × List Char)
  | 0, _, _ => none
  | fuel + 1, cs, acc =>
    match skipWs cs with
    | [] => none
    | c :: rest =>
      if c = '"' then
        match parseStringBody rest with
        | none => none
        | some (key, rest2) =>
          match skipWs rest2 with
          | ':' :: rest3 =>
            match parseValue fuel rest3 with
            | none => none
            | some (v, rest4) =>
              match skipWs rest4 with
              | [] => none
              | c5 :: rest5 =>
                if c5 = ',' then parseMembers fuel rest5 (acc ++ [(⟨key⟩, v)])
                else if c5 = rbraceChar then some (.vobj (acc ++ [(⟨key⟩, v)]), rest5)
                else none
          | _ => none
      else none

/-- Parse the elements of a JSON array after its opening bracket. -/
def parseElements : Nat → List Char → List JSValue → Option (JSValue × List Char)
  | 0, _, _ => none
  | fuel + 1, cs, acc =>
    match parseValue fuel cs with
    | none => none
    | some (v, rest) =>
      match skipWs rest with
      | [] => none
      | c :: rest2 =>
        if c = ',' then parseElements fuel rest2 (acc ++ [v])
        else if c = ']' then some (.varr (acc ++ [v]), rest2)
        else none

end

/-- Model of `JSON.parse`: `none` models a thrown `SyntaxError`. -/
def jsonParse (s : String) : Option JSValue :=
  match parseValue (s.length + 1) s.data with
  | some (v, rest) => if skipWs rest = [] then some v else none
  | none => none

/-- One escaped character of `JSON.stringify`'s string serialization. -/
def escapeChar (c : Char) : List Char :=
  if c = '"' then ['\\', '"']
  else if c = '\\' then ['\\', '\\']
  else if c = '\x08' then ['\\', 'b']
  else if c = '\x0c' then ['\\', 'f']
  else if c = '\n' then ['\\', 'n']
  else if c = '\r' then ['\\', 'r']
  else if c = '\t' then ['\\', 't']
  else if c.toNat < 32 then ['\\', 'u', '0', '0', hexDigitChar (c.toNat / 16), hexDigitChar (c.toNat % 16)]
  else [c]

/-- Escape every character of a string body. -/
def jsonEscapeList : List Char → List Char
  | [] => []
  | c :: cs => escapeChar c ++ jsonEscapeList cs

/-- Model of `JSON.stringify` applied to a string. -/
def jsonStringifyStr (s : String) : String :=
  ⟨'"' :: (jsonEscapeList s.data ++ ['"'])⟩

/-- Approximate model of JavaScript number-to-string conversion for the exact
decimal `m * 10 ^ e` (no claim inspects serialized numbers). -/
def numToString (m e : Int) : String :=
  if 0 ≤ e then toString (m * (10 : Int) ^ e.toNat)
  else toString (m / (10 : Int) ^ (-e).toNat) ++ "." ++ toString (m % (10 : Int) ^ (-e).toNat).natAbs

mutual

/-- Model of `JSON.stringify(v, null, 2)` at indentation `ind`: `none` models
the JavaScript result `undefined` (for `undefined` and functions). -/
def jsonStringifyPretty (ind : String) : JSValue → Option String
  | .vundefined => none
  | .vfun _ => none
  | .vnull => some "null"
  | .vbool b => some (if b then "true" else "false")
  | .vnum m e => some (numToString m e)
  | .vstr s => some (jsonStringifyStr s)
  | .varr xs =>
    match stringifyElems (ind ++ "  ") xs with
    | [] => some "[]"
    | items =>
      some ("[\n" ++ String.intercalate ",\n" items ++ "\n" ++ ind ++ "]")
  | .vobj kvs =>
    match stringifyFields (ind ++ "  ") kvs with
    | [] => some (String.mk [lbraceChar, rbraceChar])
    | items =>
      some (String.mk [lbraceChar] ++ "\n" ++ String.intercalate ",\n" items ++ "\n" ++ ind
        ++ String.mk [rbraceChar])

/-- Serialized array elements (`undefined`/functions serialize as `null`). -/
def stringifyElems (ind : String) : List JSValue → List String
  | [] => []
  | v :: rest => (ind ++ ((jsonStringifyPretty ind v).getD "null")) :: stringifyElems ind rest

/-- Serialized object members (entries whose value does not serialize are
dropped, as `JSON.stringify` does). -/
def stringifyFields (ind : String) : List (String × JSValue) → List String
  | [] => []
  | (k, v) :: rest =>
    match jsonStringifyPretty ind v with
    | none => stringifyFields ind rest
    | some s => (ind ++ jsonStringifyStr k ++ ": " ++ s) :: stringifyFields ind rest

end

/-- An inbound dev-server request together with the writable state of its
response (`req`, `res` of the middleware). -/
structure DevReq where
  url : Option String
  originalUrl : Option String
  secFetchDest : Option String
  resWritableEnded : Bool

/-- The SSR module loaded by `server.ssrLoadModule`, abstracted to its
conventional `render` export (assumed present, as the source assumes). -/
structure SSRModule where
  render : DevReq → String → JSValue

/-- The `RenderContext` passed to the user `render` hook (the source also
passes the response handle `res`, which has no observable state here). -/
structure RenderContext where
  req : DevReq
  ssr : SSRModule
  template : String
  manifest : JSValue

/-- The plugin's `PluginOptions`.  Hook functions are modelled as pure
(already-awaited) functions into `JSValue`, `undefined` standing for a `void`
return. -/
structure PluginOptions where
  ssr : Option JSValue := none
  manifestId : Option String := none
  templateId : Option String := none
  writeManifest : Option Bool := none
  transformManifest : Option (JSValue → JSValue) := none
  transformTemplate : Option (String → JSValue) := none
  render : Option (RenderContext → JSValue) := none

/-- JavaScript `a || b` for an optional string `a` (the empty string is
falsy). -/
def jsOrStr (a : Option String) (b : String) : String :=
  match a with
  | some s => if s = "" then b else s
  | none => b

/-- Source line 104: `const SSR_MANIFEST_NAME = options?.manifestId || 'ssr:manifest'`. -/
def SSR_MANIFEST_NAME (options : Option PluginOptions) : String :=
  jsOrStr (options.bind (·.manifestId)) "ssr:manifest"

/-- Source line 105: `const SSR_TEMPLATE_NAME = options?.manifestId || 'ssr:template'`
— the source reads `manifestId` here, not `templateId`. -/
def SSR_TEMPLATE_NAME (options : Option PluginOptions) : String :=
  jsOrStr (options.bind (·.manifestId)) "ssr:template"

/-- The plugin's module-level mutable state: `manifestSource` (initially the
empty object) and `templateSource` (initially the empty string). -/
structure Store where
  manifestSource : JSValue
  templateSource : String

/-- The initial store (`let manifestSource: Manifest = {}; let templateSource = ''`). -/
def initialStore : Store := { manifestSource := .vobj [], templateSource := "" }

/-- The `resolveId` plugin hook: resolve the two virtual ids, otherwise fall
through (`none`). -/
def resolveId (options : Option PluginOptions) (source : String) : Option String :=
  if source = SSR_MANIFEST_NAME options ∨ source = SSR_TEMPLATE_NAME options then some source
  else none

/-- Source text of the virtual manifest module:
`export default ${JSON.stringify(manifestSource, null, 2)}` (an `undefined`
serialization interpolates as the text `undefined`). -/
def manifestModuleSource (st : Store) : String :=
  "export default " ++ ((jsonStringifyPretty "" st.manifestSource).getD "undefined")

/-- Source text of the virtual template module:
`export default ${JSON.stringify(templateSource)}`. -/
def templateModuleSource (st : Store) : String :=
  "export default " ++ jsonStringifyStr st.templateSource

/-- The `load` plugin hook: the manifest id is checked first, then the
template id; any other id falls through (`none`). -/
def load (options : Option PluginOptions) (st : Store) (id : String) : Option String :=
  if id = SSR_MANIFEST_NAME options then some (manifestModuleSource st)
  else if id = SSR_TEMPLATE_NAME options then some (templateModuleSource st)
  else none

/-- The source's `applyManifestTransformation`: run the manifest hook, `JSON.parse` a
string result (`Except.error` models the propagated `SyntaxError`), and store
the result when it is a truthy value of `typeof 'object'`; otherwise keep the
previous manifest. -/
def applyManifestTransformation (hook : Option (JSValue → JSValue)) (manifestSource : JSValue) :
    Except Unit JSValue :=
  let m : JSValue := match hook with
    | some f => f manifestSource
    | none => .vundefined
  match (if jsTypeof m = "string" then
          match m with
          | .vstr s =>
            match jsonParse s with
            | some v => Except.ok v
            | none => Except.error ()
          | _ => Except.ok m
        else Except.ok m : Except Unit JSValue) with
  | .error e => .error e
  | .ok m' => .ok (if jsTruthy m' ∧ jsTypeof m' = "object" then m' else manifestSource)

/-- The source's `applyTemplateTransformation`: run the template hook and store its result
when it is a string; also reports whether the hook was invoked. -/
def applyTemplateTransformationEv (hook : Option (String → JSValue)) (templateSource : String) :
    String × Bool :=
  match hook with
  | none => (templateSource, false)
  | some f =>
    ((match f templateSource with
      | .vstr s => s
      | _ => templateSource), true)

/-- The dev server's configuration, as far as the middleware reads it. -/
structure ServerConfig where
  root : String
  buildSsr : Option JSValue := none
  rollupInput : Option JSValue := none

/-- Collaborators the middleware calls: the filesystem, the host's
`transformIndexHtml`, and `ssrLoadModule`. -/
structure DevEnv where
  fileExists : String → Bool
  readFile : String → String
  transformIndexHtml : String → String → Option String → String
  ssrLoadModule : String → SSRModule

/-- What the middleware did with the request: fall through to `next`, or
`send` a response body (sent with content type html and the configured
headers, which carry no further observable state here). -/
inductive DevAction where
  | next
  | send (body : String)
  deriving DecidableEq

/-- Observable collaborator calls of one middleware invocation. -/
inductive DevEvent where
  | fileRead (path : String)
  | templateTransformRun
  | manifestTransformRun
  | renderHookRun
  | moduleRenderRun
  deriving DecidableEq

/-- Result of one middleware invocation. -/
structure DevOutcome where
  action : DevAction
  store : Store
  events : List DevEvent

/-- Coerce a missing value to `undefined`. -/
def jsOrUndef (v : Option JSValue) : JSValue := v.getD .vundefined

/-- Resolution of the SSR entry (`options?.ssr || server.config.build?.ssr`,
with `true` replaced by `rollupOptions.input`, then kept only if a truthy
string). -/
def resolveSsrModule (options : Option PluginOptions) (cfg : ServerConfig) : Option String :=
  let optSsr := jsOrUndef (options.bind (·.ssr))
  let ssrInput := if jsTruthy optSsr then optSsr else jsOrUndef cfg.buildSsr
  let ssrInput := match ssrInput with
    | .vbool true => jsOrUndef cfg.rollupInput
    | v => v
  match ssrInput with
  | .vstr s => if s = "" then none else some s
  | _ => none

/-- Model of `String.endsWith`, computed on the character lists (the library version
is byte-position-based and does not reduce definitionally). -/
def strEndsWith (s suffix : String) : Bool := suffix.data.isSuffixOf s.data

/-- Model of `String.startsWith`, computed on the character lists. -/
def strStartsWith (s p : String) : Bool := p.data.isPrefixOf s.data

/-- Model of `String.drop`, computed on the character lists. -/
def strDrop (s : String) (n : Nat) : String := ⟨s.data.drop n⟩

/-- Everything from the first occurrence of `c` on, removed
(`replace(/c.*$/s, '')`). -/
def stripAfterChar (c : Char) (s : String) : String :=
  ⟨s.data.takeWhile (fun a => a ≠ c)⟩

/-- Strip query and fragment: `url.replace(/#.*$/s, '').replace(/\?.*$/s, '')`. -/
def stripQueryAndFragment (s : String) : String :=
  stripAfterChar '?' (stripAfterChar '#' s)

/-- Model of Node's `path.join` for the shapes the middleware produces
(separator insertion; `..` normalization is not modelled). -/
def pathJoin (a b : String) : String :=
  if a = "" then b
  else if b = "" then a
  else if strEndsWith a "/" then a ++ b
  else a ++ "/" ++ b

/-- Byte-wise model of `decodeURIComponent`: `%XY` hex pairs are decoded,
anything else passes through (multi-byte UTF-8 sequences and the `URIError`
on malformed input are not modelled; no claim depends on them). -/
def decodePercent : List Char → List Char
  | [] => []
  | '%' :: h1 :: h2 :: rest =>
    match parseHexDigit h1, parseHexDigit h2 with
    | some a, some b => Char.ofNat (16 * a + b) :: decodePercent rest
    | _, _ => '%' :: decodePercent (h1 :: h2 :: rest)
  | c :: rest => c :: decodePercent rest

/-- Model of `decodeURIComponent` on a string. -/
def decodeURIComponentModel (s : String) : String := ⟨decodePercent s.data⟩

/-- The filename the middleware resolves for a stripped url
(`decodeURIComponent(path.join(server.config.root, url.slice(1)))`). -/
def devFilename (root url : String) : String :=
  decodeURIComponentModel (pathJoin root (strDrop url 1))

/-- The middleware installed by `configureServer`, as one invocation on one
request: the source's async handler with its collaborators passed explicitly.
Returns the action taken, the updated store, and the observable events
(file reads, hook invocations) in order.  `applyManifestTransformation` is
not called anywhere on this path (its call in `load` is commented out in the
source), so no `manifestTransformRun` event can be produced.  Collaborators
and hooks are modelled as total functions, so the source's `catch` branch
(`next(e)`) is unreachable here and is not represented. -/
def handleRequest (options : Option PluginOptions) (cfg : ServerConfig) (env : DevEnv)
    (req : DevReq) (st : Store) : DevOutcome :=
  if req.resWritableEnded then ⟨.next, st, []⟩
  else
    match resolveSsrModule options cfg with
    | none => ⟨.next, st, []⟩
    | some ssrModulePath =>
      match req.url.map stripQueryAndFragment with
      | none => ⟨.next, st, []⟩
      | some url =>
        if strEndsWith url ".html" ∧ req.secFetchDest ≠ some "script" then
          let filename := devFilename cfg.root url
          if env.fileExists filename then
            let template0 := env.readFile filename
            let template1 := env.transformIndexHtml url template0 req.originalUrl
            let st1 : Store := { st with templateSource := template1 }
            let p := applyTemplateTransformationEv (options.bind (·.transformTemplate))
              st1.templateSource
            let st2 : Store := { st1 with templateSource := p.1 }
            let template := st2.templateSource
            let ssrMod := env.ssrLoadModule ssrModulePath
            let rendered : JSValue :=
              match options.bind (·.render) with
              | some r => r ⟨req, ssrMod, template, st2.manifestSource⟩
              | none => ssrMod.render req template
            let body := match rendered with
              | .vstr s => s
              | _ => template
            ⟨.send body, st2,
              [.fileRead filename]
                ++ (if p.2 then [.templateTransformRun] else [])
                ++ (match options.bind (·.render) with
                    | some _ => [.renderHookRun]
                    | none => [.moduleRenderRun])⟩
          else ⟨.next, st, []⟩
        else ⟨.next, st, []⟩

/-- A file tree node: a file, or a directory with named entries. -/
inductive FsEntry where
  | file
  | dir (entries : List (String × FsEntry))

/-- Net effect of `emptyDir(dir, skip)` on the directory's entries: every
entry not named in `skip` is removed outright (the recursive deletion passes
no skip list, so whole non-skipped subtrees — nested `.git` included — are
removed, and the `rmdirSync` after the recursion always succeeds). -/
def emptyDir (entries : List (String × FsEntry)) (skip : List String) :
    List (String × FsEntry) :=
  entries.filter (fun e => skip.contains e.1)

/-- Model of vite's `normalizePath` (windows backslashes become slashes). -/
def normalizePath (p : String) : String :=
  ⟨p.data.map (fun c => if c = '\\' then '/' else c)⟩

/-- Result of `prepareOutDir`: the output directory's entries afterwards, and
whether the out-of-root warning was logged. -/
structure PrepareOutcome where
  entries : List (String × FsEntry)
  warned : Bool

/-- The source's `prepareOutDir(outDir, emptyOutDir, config)`: on an existing directory,
warn and leave it untouched when the tri-state `emptyOutDir` preference is
`null`/`undefined` (`none`) and the directory is not inside the project
root; otherwise empty it (skipping top-level `.git`) unless emptying is
explicitly `false`. -/
def prepareOutDir (outDirExists : Bool) (entries : List (String × FsEntry))
    (outDir : String) (emptyOutDir : Option Bool) (root : String) : PrepareOutcome :=
  if outDirExists then
    if emptyOutDir = none ∧ ¬ strStartsWith (normalizePath outDir) (root ++ "/") then
      { entries := entries, warned := true }
    else if emptyOutDir ≠ some false then
      { entries := emptyDir entries [".git"], warned := false }
    else { entries := entries, warned := false }
  else { entries := entries, warned := false }

/-- The option object `src/minify.ts` passes to `html-minifier-terser`. -/
structure MinifyOptions where
  processScripts : List String
  collapseBooleanAttributes : Bool
  collapseInlineTagWhitespace : Bool
  collapseWhitespace : Bool
  conservativeCollapse : Bool
  decodeEntities : Bool
  includeAutoGeneratedTags : Bool
  minifyCSS : Bool
  minifyJS : Bool
  minifyURLs : Bool
  preventAttributesEscaping : Bool
  processConditionalComments : Bool
  removeAttributeQuotes : Bool
  removeComments : Bool
  removeEmptyAttributes : Bool
  removeOptionalTags : Bool
  removeRedundantAttributes : Bool
  removeScriptTypeAttributes : Bool
  removeStyleLinkTypeAttributes : Bool
  sortAttributes : Bool
  sortClassName : Bool
  useShortDoctype : Bool

/-- The literal options of the `minify` call in `src/minify.ts`. -/
def defaultMinifyOptions : MinifyOptions where
  processScripts := ["application/ld+json"]
  collapseBooleanAttributes := true
  collapseInlineTagWhitespace := true
  collapseWhitespace := true
  conservativeCollapse := false
  decodeEntities := true
  includeAutoGeneratedTags := false
  minifyCSS := true
  minifyJS := true
  minifyURLs := true
  preventAttributesEscaping := true
  processConditionalComments := true
  removeAttributeQuotes := false
  removeComments := true
  removeEmptyAttributes := true
  removeOptionalTags := false
  removeRedundantAttributes := true
  removeScriptTypeAttributes := true
  removeStyleLinkTypeAttributes := true
  sortAttributes := true
  sortClassName := true
  useShortDoctype := false

/-- Result of one call of the function `minify()` returns: the produced html
and whether the missing-dependency warning was logged. -/
structure MinifyOutcome where
  html : String
  warned : Bool
  deriving DecidableEq

/-- One call of the function returned by `minify()` in `src/minify.ts`.
`extMinify` is the optional `html-minifier-terser` import: `none` models a
failed dynamic import (the `catch` path), and a loaded minifier is modelled
total per its declared interface `(value, options) => Promise<string>`. -/
def minifyRun (extMinify : Option (String → MinifyOptions → String)) (html : String) :
    MinifyOutcome :=
  match extMinify with
  | none => { html := html, warned := true }
  | some f => { html := f html defaultMinifyOptions, warned := false }

/-- The Template in effect for a dev render: the file contents transformed by
the host's `transformIndexHtml`, then by the user template transform. -/
def devTemplate (options : PluginOptions) (cfg : ServerConfig) (env : DevEnv) (req : DevReq)
    (u : String) : String :=
  (applyTemplateTransformationEv options.transformTemplate
    (env.transformIndexHtml (stripQueryAndFragment u)
      (env.readFile (devFilename cfg.root (stripQueryAndFragment u))) req.originalUrl)).1

/-- Options for the C1 failing input: only `templateId` is set. -/
def c1Options : PluginOptions := { templateId := some "my:template" }

/-- Options for the C10 witness: a configured `manifestId` makes both virtual
ids equal (a direct consequence of source line 105 reading `manifestId`). -/
def c10Options : PluginOptions := { manifestId := some "app:data" }

/-- Store for the C8 witness, holding a Template with quotes, newlines and
tabs. -/
def c8Store : Store :=
  { manifestSource := .vobj [], templateSource := "<html>\n\t<body a=\"1\"></body>\n</html>" }

/-- Options for the C2/C4 scenario: an SSR entry plus all three hooks. -/
def c2Options : PluginOptions :=
  { ssr := some (.vstr "src/entry-server.ts"),
    transformManifest := some (fun m => m),
    transformTemplate := some (fun t => .vstr (t ++ "<note>")),
    render := some (fun _ => .vstr "rendered") }

/-- Server config for the dev scenarios. -/
def c2Cfg : ServerConfig := { root := "/proj" }

/-- Collaborators for the dev scenarios: every file exists, the host html
transform is the identity, and the loaded module's render returns `void`. -/
def c2Env : DevEnv :=
  { fileExists := fun _ => true,
    readFile := fun _ => "<html></html>",
    transformIndexHtml := fun _ t _ => t,
    ssrLoadModule := fun _ => { render := fun _ _ => .vundefined } }

/-- A dev request for `/index.html`. -/
def c2Req : DevReq :=
  { url := some "/index.html", originalUrl := some "/index.html",
    secFetchDest := none, resWritableEnded := false }

/-- A dev request for a script asset with a query string. -/
def c5Req : DevReq :=
  { url := some "/app.js?v=1", originalUrl := some "/app.js?v=1",
    secFetchDest := some "script", resWritableEnded := false }

theorem parseHexDigit_hexDigitChar : ∀ n, n < 16 → parseHexDigit (hexDigitChar n) = some n := by
  decide

theorem parseStringBody_escape (cs rest : List Char) :
    parseStringBody (jsonEscapeList cs ++ '"' :: rest) = some (cs, rest) := by
  induction cs with
  | nil => rw [jsonEscapeList, List.nil_append, parseStringBody.eq_def]; simp
  | cons c cs ih =>
    rw [jsonEscapeList, List.append_assoc]
    by_cases h1 : c = '"'
    · subst h1; rw [escapeChar, if_pos rfl, List.cons_append, List.cons_append,
        List.nil_append, parseStringBody.eq_def]
      simp [ih]
    by_cases h2 : c = '\\'
    · subst h2; rw [escapeChar, if_neg (by decide), if_pos rfl, List.cons_append,
        List.cons_append, List.nil_append, parseStringBody.eq_def]
      simp [ih]
    by_cases h3 : c = '\x08'
    · subst h3; rw [escapeChar]; rw [if_neg (by decide), if_neg (by decide), if_pos rfl]
      rw [List.cons_append, List.cons_append, List.nil_append, parseStringBody.eq_def]
      simp [ih]
    by_cases h4 : c = '\x0c'
    · subst h4; rw [escapeChar]
      rw [if_neg (by decide), if_neg (by decide), if_neg (by decide), if_pos rfl]
      rw [List.cons_append, List.cons_append, List.nil_append, parseStringBody.eq_def]
      simp [ih]
    by_cases h5 : c = '\n'
    · subst h5; rw [escapeChar]
      rw [if_neg (by decide), if_neg (by decide), if_neg (by decide), if_neg (by decide), if_pos rfl]
      rw [List.cons_append, List.cons_append, List.nil_append, parseStringBody.eq_def]
      simp [ih]
    by_cases h6 : c = '\r'
    · subst h6; rw [escapeChar]
      rw [if_neg (by decide), if_neg (by decide), if_neg (by decide), if_neg (by decide),
        if_neg (by decide), if_pos rfl]
      rw [List.cons_append, List.cons_append, List.nil_append, parseStringBody.eq_def]
      simp [ih]
    by_cases h7 : c = '\t'
    · subst h7; rw [escapeChar]
      rw [if_neg (by decide), if_neg (by decide), if_neg (by decide), if_neg (by decide),
        if_neg (by decide), if_neg (by decide), if_pos rfl]
      rw [List.cons_append, List.cons_append, List.nil_append, parseStringBody.eq_def]
      simp [ih]
    by_cases h8 : c.toNat < 32
    · have hhi : c.toNat / 16 < 16 := by omega
      have hlo : c.toNat % 16 < 16 := Nat.mod_lt _ (by norm_num)
      have hcode : charFromCode c.toNat = some c := by
        rw [charFromCode, if_pos (Or.inl (by omega))]
        exact congrArg some (Char.ofNat_toNat c)
      rw [escapeChar]
      rw [if_neg h1, if_neg h2, if_neg h3, if_neg h4, if_neg h5, if_neg h6, if_neg h7, if_pos h8]
      rw [List.cons_append, List.cons_append, List.cons_append, List.cons_append,
        List.cons_append, List.cons_append, List.nil_append, parseStringBody.eq_def]
      simp [parseHexDigit_hexDigitChar _ hhi, parseHexDigit_hexDigitChar _ hlo,
        show parseHexDigit '0' = some 0 from rfl, Nat.div_add_mod, hcode, ih]
    · rw [escapeChar]
      rw [if_neg h1, if_neg h2, if_neg h3, if_neg h4, if_neg h5, if_neg h6, if_neg h7, if_neg h8]
      rw [List.cons_append, List.nil_append, parseStringBody.eq_def]
      simp [h1, h2, h8, ih]

theorem jsonParse_stringifyStr (t : String) :
    jsonParse (jsonStringifyStr t) = some (.vstr t) := by
  have hdata : (jsonStringifyStr t).data = '"' :: (jsonEscapeList t.data ++ ['"']) := rfl
  have hpv : parseValue ((jsonStringifyStr t).length + 1) (jsonStringifyStr t).data
      = some (.vstr t, []) := by
    rw [parseValue, hdata]
    have hbody : parseStringBody (jsonEscapeList t.data ++ ['"']) = some (t.data, []) :=
      parseStringBody_escape t.data []
    have hmk : (⟨t.data⟩ : String) = t := rfl
    simp [skipWs, List.dropWhile_cons, show isJsonWs '"' = false from rfl, hbody, hmk]
  rw [jsonParse, hpv]
  simp [skipWs]

theorem handleRequest_render_path (options : PluginOptions) (cfg : ServerConfig) (env : DevEnv)
    (req : DevReq) (st : Store) (m u : String)
    (hw : req.resWritableEnded = false)
    (hm : resolveSsrModule (some options) cfg = some m)
    (hu : req.url = some u)
    (hh : strEndsWith (stripQueryAndFragment u) ".html" = true)
    (hs : req.secFetchDest ≠ some "script")
    (hf : env.fileExists (devFilename cfg.root (stripQueryAndFragment u)) = true) :
    handleRequest (some options) cfg env req st =
      ⟨.send (match (match options.render with
                | some r => r ⟨req, env.ssrLoadModule m, devTemplate options cfg env req u,
                    st.manifestSource⟩
                | none => (env.ssrLoadModule m).render req (devTemplate options cfg env req u)) with
              | .vstr s => s
              | _ => devTemplate options cfg env req u),
       { st with templateSource := devTemplate options cfg env req u },
       [.fileRead (devFilename cfg.root (stripQueryAndFragment u))]
         ++ (if (applyTemplateTransformationEv options.transformTemplate
                  (env.transformIndexHtml (stripQueryAndFragment u)
                    (env.readFile (devFilename cfg.root (stripQueryAndFragment u)))
                    req.originalUrl)).2 then [.templateTransformRun] else [])
         ++ (match options.render with
             | some _ => [.renderHookRun]
             | none => [.moduleRenderRun])⟩ := by
  rw [handleRequest]
  rw [if_neg (by rw [hw]; exact Bool.false_ne_true)]
  rw [hm, hu]
  simp only [Option.map_some']
  rw [if_pos (And.intro hh hs), if_pos hf]
  rfl

theorem handleRequest_render_path_hook (options : PluginOptions) (cfg : ServerConfig)
    (env : DevEnv) (req : DevReq) (st : Store) (m u : String) (r : RenderContext → JSValue)
    (hw : req.resWritableEnded = false)
    (hm : resolveSsrModule (some options) cfg = some m)
    (hu : req.url = some u)
    (hh : strEndsWith (stripQueryAndFragment u) ".html" = true)
    (hs : req.secFetchDest ≠ some "script")
    (hf : env.fileExists (devFilename cfg.root (stripQueryAndFragment u)) = true)
    (hr : options.render = some r) :
    handleRequest (some options) cfg env req st =
      ⟨.send (match r ⟨req, env.ssrLoadModule m, devTemplate options cfg env req u,
                st.manifestSource⟩ with
              | .vstr s => s
              | _ => devTemplate options cfg env req u),
       { st with templateSource := devTemplate options cfg env req u },
       [.fileRead (devFilename cfg.root (stripQueryAndFragment u))]
         ++ (if (applyTemplateTransformationEv options.transformTemplate
                  (env.transformIndexHtml (stripQueryAndFragment u)
                    (env.readFile (devFilename cfg.root (stripQueryAndFragment u)))
                    req.originalUrl)).2 then [.templateTransformRun] else [])
         ++ [.renderHookRun]⟩ := by
  rw [handleRequest_render_path options cfg env req st m u hw hm hu hh hs hf, hr]

theorem handleRequest_render_path_default (options : PluginOptions) (cfg : ServerConfig)
    (env : DevEnv) (req : DevReq) (st : Store) (m u : String)
    (hw : req.resWritableEnded = false)
    (hm : resolveSsrModule (some options) cfg = some m)
    (hu : req.url = some u)
    (hh : strEndsWith (stripQueryAndFragment u) ".html" = true)
    (hs : req.secFetchDest ≠ some "script")
    (hf : env.fileExists (devFilename cfg.root (stripQueryAndFragment u)) = true)
    (hr : options.render = none) :
    handleRequest (some options) cfg env req st =
      ⟨.send (match (env.ssrLoadModule m).render req (devTemplate options cfg env req u) with
              | .vstr s => s
              | _ => devTemplate options cfg env req u),
       { st with templateSource := devTemplate options cfg env req u },
       [.fileRead (devFilename cfg.root (stripQueryAndFragment u))]
         ++ (if (applyTemplateTransformationEv options.transformTemplate
                  (env.transformIndexHtml (stripQueryAndFragment u)
                    (env.readFile (devFilename cfg.root (stripQueryAndFragment u)))
                    req.originalUrl)).2 then [.templateTransformRun] else [])
         ++ [.moduleRenderRun]⟩ := by
  rw [handleRequest_render_path options cfg env req st m u hw hm hu hh hs hf, hr]

/-- C1: the claim says setting only `templateId` makes the template virtual
module importable under that name.  The code instead derives the template id
from `options?.manifestId` (source line 105), so `templateId` has no effect:
with `templateId = "my:template"`, the name "my:template" is not resolved at
all and the template module still answers to the default "ssr:template". -/
theorem c1_templateId_ignored :
    SSR_TEMPLATE_NAME (some c1Options) = "ssr:template" ∧
    SSR_MANIFEST_NAME (some c1Options) = "ssr:manifest" ∧
    resolveId (some c1Options) "my:template" = none ∧
    load (some c1Options) initialStore "my:template" = none := by
  refine ⟨rfl, rfl, ?_, ?_⟩
  · rw [resolveId, if_neg]
    rintro (h | h) <;> exact absurd h (by decide)
  · rw [load, if_neg (by decide), if_neg (by decide)]

/-- C10: `load` checks the manifest id before the template id, so whenever the
two configured virtual module names are equal, every id either yields the
serialized manifest module or falls through — the template module source is
never produced. -/
theorem c10_manifest_checked_first (options : Option PluginOptions) (st : Store)
    (h : SSR_MANIFEST_NAME options = SSR_TEMPLATE_NAME options) (id : String) :
    load options st id =
      if id = SSR_MANIFEST_NAME options then some (manifestModuleSource st) else none := by
  rw [load]
  by_cases hid : id = SSR_MANIFEST_NAME options
  · rw [if_pos hid, if_pos hid]
  · have hid2 : ¬ id = SSR_TEMPLATE_NAME options := by rw [← h]; exact hid
    rw [if_neg hid, if_neg hid2, if_neg hid]

/-- C10 witness: with `manifestId := "app:data"` both virtual ids equal
"app:data", and loading it yields the manifest module source. -/
theorem c10_manifest_checked_first_witness :
    load (some c10Options) initialStore "app:data" = some (manifestModuleSource initialStore) := by
  have h := c10_manifest_checked_first (some c10Options) initialStore (by decide) "app:data"
  rw [h, if_pos (by decide)]

/-- C8: under distinct virtual ids, loading the template virtual module
produces `export default` followed by the JSON string literal of the stored
Template, and that literal evaluates (parses) back to exactly the stored
Template, byte for byte. -/
theorem c8_template_module_roundtrip (options : Option PluginOptions) (st : Store)
    (h : SSR_TEMPLATE_NAME options ≠ SSR_MANIFEST_NAME options) :
    load options st (SSR_TEMPLATE_NAME options) =
      some ("export default " ++ jsonStringifyStr st.templateSource) ∧
    jsonParse (jsonStringifyStr st.templateSource) = some (.vstr st.templateSource) := by
  refine ⟨?_, jsonParse_stringifyStr _⟩
  rw [load, if_neg h, if_pos rfl]
  rfl

/-- C8 witness at default options and a whitespace-rich template. -/
theorem c8_template_module_roundtrip_witness :
    load none c8Store "ssr:template" =
      some ("export default " ++ jsonStringifyStr c8Store.templateSource) ∧
    jsonParse (jsonStringifyStr c8Store.templateSource) = some (.vstr c8Store.templateSource) := by
  have h := c8_template_module_roundtrip none c8Store (by decide)
  exact ⟨h.1, h.2⟩

/-- C3 counterexample: a manifest transform returning a string that is not
JSON makes `applyManifestTransformation` raise (the `JSON.parse` error
propagates), contradicting the claim that it never raises an error. -/
theorem c3_unparseable_string_raises :
    applyManifestTransformation (some (fun _ => .vstr "not json")) (.vobj []) = .error () := by
  rfl

/-- C3 amended: object results replace the manifest; string results are fed
to `JSON.parse`, whose failure propagates as an error while a parsed truthy
object replaces the manifest; every other result keeps the previous
manifest. -/
theorem c3_type_sniffing (hook : JSValue → JSValue) (src : JSValue) :
    (∀ s, hook src = .vstr s →
      applyManifestTransformation (some hook) src =
        match jsonParse s with
        | none => .error ()
        | some v => .ok (if jsTruthy v ∧ jsTypeof v = "object" then v else src)) ∧
    (jsTypeof (hook src) ≠ "string" →
      applyManifestTransformation (some hook) src =
        .ok (if jsTruthy (hook src) ∧ jsTypeof (hook src) = "object" then hook src else src)) := by
  constructor
  · intro s hs
    rw [applyManifestTransformation]
    simp only [hs]
    rw [if_pos (show jsTypeof (JSValue.vstr s) = "string" by rfl)]
    cases jsonParse s <;> rfl
  · intro hns
    simp only [applyManifestTransformation]
    rw [if_neg hns]

/-- C3 witness: a transform returning an object replaces the manifest. -/
theorem c3_type_sniffing_witness :
    applyManifestTransformation (some (fun _ => .vobj [("a", .varr [.vstr "x"])])) (.vobj []) =
      .ok (.vobj [("a", .varr [.vstr "x"])]) := by
  have h := (c3_type_sniffing (fun _ => .vobj [("a", .varr [.vstr "x"])]) (.vobj [])).2
    (by intro h; exact absurd h (by decide))
  rw [h, if_pos (by exact ⟨rfl, rfl⟩)]

/-- C2 counterexample: on a dev request that reaches the render path, with a
manifest transform hook configured, the manifest transform hook is invoked
zero times (only the template transform hook runs), contradicting the claim
that both hooks are invoked once per development request. -/
theorem c2_manifest_hook_not_run_per_request :
    c2Options.transformManifest.isSome = true ∧
    (handleRequest (some c2Options) c2Cfg c2Env c2Req initialStore).action = .send "rendered" ∧
    (handleRequest (some c2Options) c2Cfg c2Env c2Req initialStore).events.count
      .manifestTransformRun = 0 ∧
    (handleRequest (some c2Options) c2Cfg c2Env c2Req initialStore).events.count
      .templateTransformRun = 1 := by
  refine ⟨rfl, ?_, ?_, ?_⟩ <;> decide

/-- C2 amended: on every dev request that reaches the render path, the
template transform hook is invoked exactly once when configured (never
otherwise), and the manifest transform hook is never invoked during dev
request handling (it runs only at production harvest time). -/
theorem c2_template_hook_once_manifest_never (options : PluginOptions) (cfg : ServerConfig)
    (env : DevEnv) (req : DevReq) (st : Store) (m u : String)
    (hw : req.resWritableEnded = false)
    (hm : resolveSsrModule (some options) cfg = some m)
    (hu : req.url = some u)
    (hh : strEndsWith (stripQueryAndFragment u) ".html" = true)
    (hs : req.secFetchDest ≠ some "script")
    (hf : env.fileExists (devFilename cfg.root (stripQueryAndFragment u)) = true) :
    (handleRequest (some options) cfg env req st).events.count .manifestTransformRun = 0 ∧
    (handleRequest (some options) cfg env req st).events.count .templateTransformRun =
      (if options.transformTemplate.isSome then 1 else 0) := by
  cases hR : options.render with
  | none =>
    rw [handleRequest_render_path_default options cfg env req st m u hw hm hu hh hs hf hR]
    cases hT : options.transformTemplate <;> exact ⟨rfl, rfl⟩
  | some r =>
    rw [handleRequest_render_path_hook options cfg env req st m u r hw hm hu hh hs hf hR]
    cases hT : options.transformTemplate <;> exact ⟨rfl, rfl⟩

/-- C2 witness for the amended statement, at the concrete scenario. -/
theorem c2_template_hook_once_manifest_never_witness :
    (handleRequest (some c2Options) c2Cfg c2Env c2Req initialStore).events.count
      .manifestTransformRun = 0 ∧
    (handleRequest (some c2Options) c2Cfg c2Env c2Req initialStore).events.count
      .templateTransformRun = 1 := by
  have h := c2_template_hook_once_manifest_never c2Options c2Cfg c2Env c2Req initialStore
    "src/entry-server.ts" "/index.html" rfl (by decide) rfl (by decide)
    (fun hc => Option.noConfusion hc) (by decide)
  exact ⟨h.1, h.2.trans (by rfl)⟩

/-- C4: on the render path, with a configured render hook the response body is
exactly the string the hook returns, and the already-transformed Template when
the hook returns a non-string; without a hook, the loaded module's `render`
export is applied to the request and the Template as positional arguments and
its result is used the same way. -/
theorem c4_response_body (options : PluginOptions) (cfg : ServerConfig) (env : DevEnv)
    (req : DevReq) (st : Store) (m u : String)
    (hw : req.resWritableEnded = false)
    (hm : resolveSsrModule (some options) cfg = some m)
    (hu : req.url = some u)
    (hh : strEndsWith (stripQueryAndFragment u) ".html" = true)
    (hs : req.secFetchDest ≠ some "script")
    (hf : env.fileExists (devFilename cfg.root (stripQueryAndFragment u)) = true) :
    (∀ r, options.render = some r →
      (handleRequest (some options) cfg env req st).action =
        (match r ⟨req, env.ssrLoadModule m, devTemplate options cfg env req u,
            st.manifestSource⟩ with
         | .vstr s => DevAction.send s
         | _ => DevAction.send (devTemplate options cfg env req u))) ∧
    (options.render = none →
      (handleRequest (some options) cfg env req st).action =
        (match (env.ssrLoadModule m).render req (devTemplate options cfg env req u) with
         | .vstr s => DevAction.send s
         | _ => DevAction.send (devTemplate options cfg env req u))) := by
  constructor
  · intro r hr
    rw [handleRequest_render_path_hook options cfg env req st m u r hw hm hu hh hs hf hr]
    cases r ⟨req, env.ssrLoadModule m, devTemplate options cfg env req u,
      st.manifestSource⟩ <;> rfl
  · intro hr
    rw [handleRequest_render_path_default options cfg env req st m u hw hm hu hh hs hf hr]
    cases (env.ssrLoadModule m).render req (devTemplate options cfg env req u) <;> rfl

/-- C4 witness: the configured hook returns "rendered" and that exact string
is sent. -/
theorem c4_response_body_witness :
    (handleRequest (some c2Options) c2Cfg c2Env c2Req initialStore).action =
      DevAction.send "rendered" := by
  have h := (c4_response_body c2Options c2Cfg c2Env c2Req initialStore
    "src/entry-server.ts" "/index.html" rfl (by decide) rfl (by decide)
    (fun hc => Option.noConfusion hc) (by decide)).1 _ rfl
  exact h.trans (by rfl)

/-- C5: a request whose stripped path does not end in ".html", or whose
`sec-fetch-dest` header is "script", is passed through: the middleware answers
`next` and performs no collaborator call at all (no file read, no transform
hook, no render). -/
theorem c5_pass_through (options : Option PluginOptions) (cfg : ServerConfig) (env : DevEnv)
    (req : DevReq) (st : Store)
    (h : (∀ u, req.url = some u → strEndsWith (stripQueryAndFragment u) ".html" = false) ∨
         req.secFetchDest = some "script") :
    (handleRequest options cfg env req st).action = .next ∧
    (handleRequest options cfg env req st).events = [] := by
  rw [handleRequest]
  by_cases hw : req.resWritableEnded = true
  · rw [if_pos hw]; exact ⟨rfl, rfl⟩
  · rw [if_neg hw]
    cases hm : resolveSsrModule options cfg
    · exact ⟨rfl, rfl⟩
    · cases hu : req.url
      · exact ⟨rfl, rfl⟩
      · rename_i u
        simp only [Option.map_some']
        have hcond : ¬ (strEndsWith (stripQueryAndFragment u) ".html" = true ∧
            req.secFetchDest ≠ some "script") := by
          rcases h with h | h
          · rintro ⟨hc, -⟩
            rw [h u hu] at hc
            exact Bool.false_ne_true hc
          · rintro ⟨-, hc⟩
            exact hc h
        rw [if_neg hcond]
        exact ⟨rfl, rfl⟩

/-- C5 witness: with an SSR entry configured, an asset request is passed
through with no events. -/
theorem c5_pass_through_witness :
    (handleRequest (some c2Options) c2Cfg c2Env c5Req initialStore).action = .next ∧
    (handleRequest (some c2Options) c2Cfg c2Env c5Req initialStore).events = [] := by
  exact c5_pass_through (some c2Options) c2Cfg c2Env c5Req initialStore
    (Or.inl (fun u hu => by cases hu; decide))

/-- C7: dev request handling never changes the stored Manifest — for every
request and every store, the manifest after the middleware runs equals the
manifest before. -/
theorem c7_manifest_never_mutated (options : Option PluginOptions) (cfg : ServerConfig)
    (env : DevEnv) (req : DevReq) (st : Store) :
    (handleRequest options cfg env req st).store.manifestSource = st.manifestSource := by
  rw [handleRequest]
  by_cases hw : req.resWritableEnded = true
  · rw [if_pos hw]
  · rw [if_neg hw]
    cases resolveSsrModule options cfg
    · rfl
    · cases req.url
      · rfl
      · simp only [Option.map_some']
        split
        · split <;> rfl
        · rfl

/-- C6: on an existing output directory, `prepareOutDir` leaves an
out-of-root directory untouched with a warning when the emptying preference
is unspecified; otherwise, unless emptying is explicitly disabled, it empties
the directory while preserving the top-level `.git` entry. -/
theorem c6_prepare_out_dir (entries : List (String × FsEntry)) (outDir root : String)
    (pref : Option Bool) :
    (pref = none → ¬ strStartsWith (normalizePath outDir) (root ++ "/") →
      prepareOutDir true entries outDir pref root = { entries := entries, warned := true }) ∧
    ((pref = none → strStartsWith (normalizePath outDir) (root ++ "/")) → pref ≠ some false →
      (prepareOutDir true entries outDir pref root).warned = false ∧
      (prepareOutDir true entries outDir pref root).entries = emptyDir entries [".git"] ∧
      ∀ node, (".git", node) ∈ entries →
        (".git", node) ∈ (prepareOutDir true entries outDir pref root).entries) := by
  constructor
  · intro h1 h2
    rw [prepareOutDir, if_pos rfl, if_pos ⟨h1, h2⟩]
  · intro h1 h2
    have hcond : ¬ (pref = none ∧ ¬ strStartsWith (normalizePath outDir) (root ++ "/")) := by
      rintro ⟨hp, hn⟩; exact hn (h1 hp)
    rw [prepareOutDir, if_pos rfl, if_neg hcond, if_pos h2]
    refine ⟨rfl, rfl, fun node hmem => ?_⟩
    simp only [emptyDir, List.mem_filter]
    exact ⟨hmem, by rfl⟩

/-- C6 witness: an out-of-root directory with unspecified preference keeps
all its entries and the warning is logged. -/
theorem c6_prepare_out_dir_witness :
    prepareOutDir true [("assets", FsEntry.dir []), (".git", FsEntry.dir [])] "/out" none
        "/proj" =
      { entries := [("assets", FsEntry.dir []), (".git", FsEntry.dir [])], warned := true } := by
  exact (c6_prepare_out_dir _ "/out" "/proj" none).1 rfl (by decide)

/-- C9: the minify transform is total — with the dependency available it
returns the minifier's output, and when the dependency cannot be loaded it
warns and resolves to the input unchanged (the loaded minifier is modelled
total per its `Promise<string>` interface, so no call path throws). -/
theorem c9_minify_fallback (extMinify : Option (String → MinifyOptions → String))
    (html : String) :
    (extMinify = none → minifyRun extMinify html = { html := html, warned := true }) ∧
    (∀ f, extMinify = some f →
      minifyRun extMinify html = { html := f html defaultMinifyOptions, warned := false }) := by
  constructor
  · rintro rfl; rfl
  · rintro f rfl; rfl

/-- C9 witness: with the dependency unavailable the input comes back
unchanged, with the warning. -/
theorem c9_minify_fallback_witness :
    minifyRun none "<html></html>" = { html := "<html></html>", warned := true } :=
  (c9_minify_fallback none "<html></html>").1 rfl
